import Mathlib

/-!
Verification of the Tedee BLE lock client (PTLS secure channel, lock command
layer, connection coordinator) against its natural-language specification.

The Python source is shallowly embedded: bytes are `List Nat`, stateful
session objects become explicit state records, fallible operations return
`Except`, and the cryptographic primitives (SHA-256, HMAC-SHA256,
AES-GCM-128, ECDSA-P256) are abstract function parameters collected in a
`CryptoModel`, since the protocol logic under verification treats them as
black boxes.
-/

namespace Tedee

/-- Byte strings are modelled as lists of natural numbers (byte values). -/
abbrev Bytes := List Nat

/-- Abstract cryptographic primitives used by the protocol code
(`tedee_lib/crypto.py`).  The protocol logic only composes them, so they are
modelled as opaque function parameters.  `aesGcmDecrypt` returns `none` on a
GCM authentication failure (the Python primitive raises `InvalidTag`). -/
structure CryptoModel where
  sha256 : Bytes → Bytes
  hmacSha256 : Bytes → Bytes → Bytes
  aesGcmEncrypt : Bytes → Bytes → Bytes → Bytes → Bytes
  aesGcmDecrypt : Bytes → Bytes → Bytes → Bytes → Option Bytes
  /-- Modelled from the spec: `ecdsa_verify_prehashed(public, sig, 32-byte-digest)`
  is listed among the crypto primitives and is called from
  `ptls.py::PTLSSession._server_verify`, but has no definition under
  `src/custom_components/tedee_ble/tedee_lib/crypto.py` (only `ecdsa_verify`
  over raw messages is defined there).  It is modelled as an abstract boolean
  verification predicate over (public key bytes, DER signature, digest). -/
  ecdsaVerifyPrehashed : Bytes → Bytes → Bytes → Bool
  ecdsaSign : Bytes → Bytes → Bytes

/-- `crypto.make_nonce` (crypto.py lines 88-93): copy the base IV and XOR the
16-bit big-endian counter into bytes 10 and 11. -/
def make_nonce (base_iv : Bytes) (counter : Nat) : Bytes :=
  let iv1 := base_iv.set 10 (base_iv.getD 10 0 ^^^ ((counter >>> 8) &&& 0xFF))
  iv1.set 11 (iv1.getD 11 0 ^^^ (counter &&& 0xFF))

/-- Big-endian 16-bit encoding, `struct.pack` format `>H`. -/
def u16be (n : Nat) : Bytes := [(n >>> 8) &&& 0xFF, n &&& 0xFF]

/-- Big-endian 16-bit decoding, `struct.unpack` format `>H` (callers ensure
the slice has exactly two bytes). -/
def u16beParse (l : Bytes) : Nat := l.getD 0 0 * 256 + l.getD 1 0

/-- `crypto.derive_keys_from_hmac`: `material = HMAC-SHA256(secret, label || th)`,
key is `material[:16]`, IV is `material[16:28]`. -/
def derive_keys_from_hmac (C : CryptoModel) (shared label th : Bytes) : Bytes × Bytes :=
  let material := C.hmacSha256 shared (label ++ th)
  (material.take 16, (material.drop 16).take 12)

/-- Bytes of the label string `"ptlss hs traffic"`. -/
def label_ptlss_hs : Bytes := "ptlss hs traffic".toList.map Char.toNat

/-- Bytes of the label string `"ptlsc hs traffic"`. -/
def label_ptlsc_hs : Bytes := "ptlsc hs traffic".toList.map Char.toNat

/-- Bytes of the label string `"ptlsc ap traffic"`. -/
def label_ptlsc_ap : Bytes := "ptlsc ap traffic".toList.map Char.toNat

/-- Bytes of the label string `"ptlss ap traffic"`. -/
def label_ptlss_ap : Bytes := "ptlss ap traffic".toList.map Char.toNat

/-- Error kinds raised by the embedded code paths.  `alertError` carries the
PTLS alert code (ptls.py `PTLSAlertError`), `commandError` the non-zero device
result code (lock_commands.py `CommandError`); the others correspond to the
`PTLSError` / exception sites of the source. -/
inductive TError
  | notEstablished
  | alertError (code : Nat)
  | unexpectedHeader (h : Nat)
  | indexError
  | gcmAuthFailure
  | serverHelloTooShort (n : Nat)
  | decryptionFailed
  | parseFailure
  | authDataMismatch
  | helloHashMismatch
  | signatureInvalid
  | commandError (code : Nat)
deriving DecidableEq, Repr

/-- Established-session state of `PTLSSession` (ptls.py lines 112-119):
session id, application keys/IVs and the two record counters. -/
structure PTLS where
  session_id : Option Bytes
  send_key : Bytes
  send_iv : Bytes
  recv_key : Bytes
  recv_iv : Bytes
  send_counter : Nat
  recv_counter : Nat
deriving DecidableEq, Repr

/-- `PTLSSession.is_established` (ptls.py lines 121-123). -/
def PTLS.is_established (s : PTLS) : Bool := s.session_id.isSome

/-- `PTLSSession.encrypt` (ptls.py lines 382-395): reject when not
established; otherwise emit `0x01 || AES-GCM(send_key, make_nonce(send_iv,
send_counter), plaintext)` with empty AAD and increment the send counter. -/
def PTLS.encrypt (C : CryptoModel) (s : PTLS) (plaintext : Bytes) :
    Except TError (Bytes × PTLS) :=
  if s.is_established then
    let nonce := make_nonce s.send_iv s.send_counter
    let ciphertext := C.aesGcmEncrypt s.send_key nonce plaintext []
    .ok (0x01 :: ciphertext, { s with send_counter := s.send_counter + 1 })
  else .error .notEstablished

/-- `PTLSSession._decrypt_inner` (ptls.py lines 406-428), the session's
decrypt operation (`async_decrypt` merely serializes calls to it): reject when
not established; dispatch on the header's low nibble (0x04 alert, 0x00
plaintext passthrough, 0x01 AES-GCM decrypt + counter increment, otherwise an
error). -/
def PTLS.decrypt_inner (C : CryptoModel) (s : PTLS) (data : Bytes) :
    Except TError (Bytes × PTLS) :=
  if !s.is_established then .error .notEstablished
  else
    match data with
    | [] => .error .indexError
    | b :: tail =>
      let header := b &&& 0x0F
      if header = 0x04 then .error (.alertError (tail.headD 0xFF))
      else if header = 0x00 then .ok (tail, s)
      else if header ≠ 0x01 then .error (.unexpectedHeader header)
      else
        match C.aesGcmDecrypt s.recv_key (make_nonce s.recv_iv s.recv_counter) tail [] with
        | some plaintext => .ok (plaintext, { s with recv_counter := s.recv_counter + 1 })
        | none => .error .gcmAuthFailure

/-- Fields parsed from the server hello (ptls.py lines 199-208). -/
structure ServerHello where
  version : Nat
  mtu : Nat
  server_random : Bytes
  server_ecdh_pub : Bytes
deriving DecidableEq, Repr

/-- Server-hello receive path of `PTLSSession._hello_exchange` (ptls.py lines
185-208): check the header nibble (alert / hello), reject payloads shorter
than 100 bytes, then read version (byte 0), MTU (byte 1), the 35-byte server
random block and the server ephemeral public key (bytes 35..100). -/
def parse_server_hello (response : Bytes) : Except TError ServerHello :=
  match response with
  | [] => .error .indexError
  | b :: payload =>
    let header := b &&& 0x0F
    if header = 0x04 then .error (.alertError (payload.headD 0xFF))
    else if header ≠ 0x03 then .error (.unexpectedHeader header)
    else if payload.length < 100 then .error (.serverHelloTooShort payload.length)
    else
      .ok { version := payload.getD 0 0
            mtu := payload.getD 1 0
            server_random := payload.take 35
            server_ecdh_pub := (payload.drop 35).take 65 }

/-- Handshake context available when `_server_verify` runs: the persisted
device public key, the transcript bytes absorbed so far (client hello payload
followed by server hello payload — `hashlib` incremental hashing of a
concatenation), the hello-hash snapshot, the ECDH shared secret and the
8-byte auth challenge that was sent. -/
structure HandshakeCtx where
  device_pubkey : Bytes
  transcript : Bytes
  hello_hash : Bytes
  shared_secret : Bytes
  auth_data : Bytes
deriving DecidableEq, Repr

/-- Parse of the decrypted server-verify plaintext (ptls.py lines 254-267):
three length-prefixed fields (2-byte big-endian lengths).  `struct.unpack`
needs exactly two bytes for each length read (else the Python raises), while
the data slices themselves truncate silently, exactly as `bytes[pos:pos+n]`
does. -/
def parse_server_verify (d : Bytes) : Option (Bytes × Bytes × Bytes) :=
  if d.length < 2 then none
  else
    let lenA := u16beParse (d.take 2)
    let r1 := d.drop 2
    let authD := r1.take lenA
    let r2 := r1.drop lenA
    if r2.length < 2 then none
    else
      let lenS := u16beParse (r2.take 2)
      let r3 := r2.drop 2
      let sigB := r3.take lenS
      let r4 := r3.drop lenS
      if r4.length < 2 then none
      else
        let lenH := u16beParse (r4.take 2)
        let r5 := r4.drop 2
        some (authD, sigB, r5.take lenH)

/-- `PTLSSession._server_verify` receive path (ptls.py lines 222-300):
header checks, decryption under the `"ptlss hs traffic"` handshake keys,
parse of the three length-prefixed fields, echo checks of auth_data and
hello_hash, ECDSA verification of the server signature over the digest
`SHA-256(transcript || uint16_be(len(auth_data)) || auth_data)` with the
persisted device public key, and finally the transcript update with the whole
decrypted plaintext. -/
def server_verify (C : CryptoModel) (ctx : HandshakeCtx) (response : Bytes) :
    Except TError HandshakeCtx :=
  match response with
  | [] => .error .indexError
  | b :: tail =>
    let header := b &&& 0x0F
    if header = 0x04 then .error (.alertError (tail.headD 0xFF))
    else if header ≠ 0x05 then .error (.unexpectedHeader header)
    else
      let kv := derive_keys_from_hmac C ctx.shared_secret label_ptlss_hs ctx.hello_hash
      match C.aesGcmDecrypt kv.1 kv.2 tail [] with
      | none => .error .decryptionFailed
      | some d =>
        match parse_server_verify d with
        | none => .error .parseFailure
        | some (authD, sigB, hh) =>
          if authD ≠ ctx.auth_data then .error .authDataMismatch
          else if hh ≠ ctx.hello_hash then .error .helloHashMismatch
          else
            let digest := C.sha256 (ctx.transcript ++ u16be authD.length ++ authD)
            if C.ecdsaVerifyPrehashed ctx.device_pubkey sigB digest then
              .ok { ctx with transcript := ctx.transcript ++ d }
            else .error .signatureInvalid

/-- Python list slice `l[:n]` for a possibly negative bound `n`. -/
def pyTake (n : Int) (l : Bytes) : Bytes :=
  if 0 ≤ n then l.take n.toNat else l.take (l.length - (-n).toNat)

/-- Python list slice `l[n:]` for a possibly negative bound `n`. -/
def pyDrop (n : Int) (l : Bytes) : Bytes :=
  if 0 ≤ n then l.drop n.toNat else l.drop (l.length - (-n).toNat)

/-- MTU split of `PTLSSession._client_verify` (ptls.py lines 340-352): with
`mtu = server_mtu - 1` (Python integer arithmetic), either the whole
ciphertext fits and is sent as `[0x06 | ciphertext]` followed by the bare
`[0x07]` frame, or it is split at `mtu` into `[0x06 | first]` and
`[0x07 | rest]`.  Returns the two frames in write order. -/
def client_verify_frames (server_mtu : Nat) (encrypted : Bytes) : List Bytes :=
  let mtu : Int := (server_mtu : Int) - 1
  if (encrypted.length : Int) ≤ mtu then
    [0x06 :: encrypted, [0x07]]
  else
    [0x06 :: pyTake mtu encrypted, 0x07 :: pyDrop mtu encrypted]

/-- State of `TedeeLock` (lock_commands.py lines 120-131): the PTLS session
plus the sticky door state last observed in a notification. -/
structure LockState where
  ptls : PTLS
  door_state : Nat
deriving DecidableEq, Repr

/-- The high-level commands of `TedeeLock` with their parameters. -/
inductive Cmd
  | setSignedTime (dt : Bytes) (sigB : Bytes)
  | unlock (mode : Nat)
  | lock (mode : Nat)
  | pullSpring
  | getState
  | getBattery
deriving DecidableEq, Repr

/-- Opcode payload each command builds before sending (lock_commands.py lines
150, 162, 174, 186, 202, 232). -/
def cmdPayload : Cmd → Bytes
  | .setSignedTime dt sigB => 0x71 :: (dt ++ sigB)
  | .unlock mode => [0x51, mode]
  | .lock mode => [0x50, mode]
  | .pullSpring => [0x52]
  | .getState => [0x5A]
  | .getBattery => [0x0C]

/-- `TedeeLock._send_command` (lock_commands.py lines 133-143): encrypt the
command with the session, write it to the command channel, decrypt the
response read from that channel with the session's decrypt operation, and
return the response with the opcode byte stripped.  `wire_response` is the
wire frame the transport read; the result carries (bytes written, stripped
response, post session state). -/
def send_command (C : CryptoModel) (s : PTLS) (command wire_response : Bytes) :
    Except TError (Bytes × Bytes × PTLS) :=
  match s.encrypt C command with
  | .error e => .error e
  | .ok (wire, s1) =>
    match s1.decrypt_inner C wire_response with
    | .error e => .error e
    | .ok (decrypted, s2) => .ok (wire, decrypted.drop 1, s2)

/-- Results returned by the high-level commands. -/
inductive CmdResult
  | unit
  | ack (code : Nat)
  | state (lock_state status door_state : Nat)
  | battery (level : Nat) (charging : Bool)
deriving DecidableEq, Repr

/-- One high-level command invocation on `TedeeLock` (lock_commands.py lines
145-244): run `_send_command`, read the result code (`response[0]`), raise
`CommandError` on a non-zero code, and parse the per-command result.
`get_state` reads `response[1]` as the lock state, defaults the status to OK
when the response has fewer than 3 bytes, and reports the stored sticky door
state; `get_battery` reads the level and optional charging flag. -/
def run_command (C : CryptoModel) (lk : LockState) (cmd : Cmd) (wire_response : Bytes) :
    Except TError (CmdResult × LockState × Bytes) :=
  match send_command C lk.ptls (cmdPayload cmd) wire_response with
  | .error e => .error e
  | .ok (wire, response, s2) =>
    match response with
    | [] => .error .indexError
    | r :: rest =>
      if r ≠ 0 then .error (.commandError r)
      else
        match cmd with
        | .setSignedTime _ _ => .ok (.unit, { lk with ptls := s2 }, wire)
        | .unlock _ => .ok (.ack r, { lk with ptls := s2 }, wire)
        | .lock _ => .ok (.ack r, { lk with ptls := s2 }, wire)
        | .pullSpring => .ok (.ack r, { lk with ptls := s2 }, wire)
        | .getState =>
          match rest with
          | [] => .error .indexError
          | ls :: rest2 =>
            .ok (.state ls (rest2.headD 0x00) lk.door_state, { lk with ptls := s2 }, wire)
        | .getBattery =>
          match rest with
          | [] => .error .indexError
          | lv :: rest2 =>
            let charging := match rest2 with
              | [] => false
              | ch :: _ => decide (ch = 1)
            .ok (.battery lv charging, { lk with ptls := s2 }, wire)

/-- Outcome of one PTLS handshake attempt as observed by the coordinator:
success, a `PTLSAlertError` with its code, or any other failure. -/
inductive HSResult
  | ok
  | alert (code : Nat)
  | failure
deriving DecidableEq, Repr

/-- Cloud refresh operations the connect sequence can perform. -/
inductive RefreshAction
  | refreshCertificate
  | refreshSignedTime
deriving DecidableEq, Repr

/-- Commands issued right after a successful handshake. -/
inductive StartCmd
  | setSignedTime
  | getState
  | getBattery
deriving DecidableEq, Repr

/-- Observable outcome of the coordinator's connect sequence. -/
structure ConnectOutcome where
  handshake_attempts : Nat
  refreshes : List RefreshAction
  commands : List StartCmd
  success : Bool
deriving DecidableEq, Repr

/-- Handshake-retry logic of `TedeeCoordinator._connect` (coordinator.py
lines 195-268), abstracted over the outcomes `h1`/`h2` of the first and
(when reached) second handshake attempt: `INVALID_CERTIFICATE` (0x05) forces
a credential refresh and exactly one retry, `NO_TRUSTED_TIME` (0x02) forces a
signed-time refresh and exactly one retry with `set_signed_time` issued
first on success; any other failure propagates without a retry.  On success
the coordinator fetches state and battery. -/
def connect_sequence (h1 h2 : HSResult) : ConnectOutcome :=
  match h1 with
  | .ok =>
    { handshake_attempts := 1, refreshes := [], commands := [.getState, .getBattery],
      success := true }
  | .alert c =>
    if c = 0x05 then
      match h2 with
      | .ok =>
        { handshake_attempts := 2, refreshes := [.refreshCertificate],
          commands := [.getState, .getBattery], success := true }
      | _ =>
        { handshake_attempts := 2, refreshes := [.refreshCertificate],
          commands := [], success := false }
    else if c = 0x02 then
      match h2 with
      | .ok =>
        { handshake_attempts := 2, refreshes := [.refreshSignedTime],
          commands := [.setSignedTime, .getState, .getBattery], success := true }
      | _ =>
        { handshake_attempts := 2, refreshes := [.refreshSignedTime],
          commands := [], success := false }
    else { handshake_attempts := 1, refreshes := [], commands := [], success := false }
  | .failure =>
    { handshake_attempts := 1, refreshes := [], commands := [], success := false }

/-- `RECONNECT_DELAYS` (const.py line 31). -/
def RECONNECT_DELAYS : List Nat := [2, 5, 10, 30, 60]

/-- Reconnect-scheduling state of `TedeeCoordinator` (coordinator.py lines
98-104): whether a reconnect task is pending, the consecutive-attempt
counter, and the shutting-down flag. -/
structure CoordState where
  reconnect_pending : Bool
  reconnect_attempt : Nat
  shutting_down : Bool
deriving DecidableEq, Repr

/-- `TedeeCoordinator._schedule_reconnect` (coordinator.py lines 313-330):
skip when a reconnect task is already pending, otherwise pick
`RECONNECT_DELAYS[min(attempt, len - 1)]`, bump the attempt counter and mark
a task pending.  Returns the scheduled delay (`none` when skipped). -/
def schedule_reconnect (s : CoordState) : Option Nat × CoordState :=
  if s.reconnect_pending then (none, s)
  else
    let idx := min s.reconnect_attempt (RECONNECT_DELAYS.length - 1)
    (some (RECONNECT_DELAYS.getD idx 0),
     { s with reconnect_pending := true, reconnect_attempt := s.reconnect_attempt + 1 })

/-- Events that touch the reconnect-scheduling state. -/
inductive CoordEvent
  | disconnect
  | reconnectFailed
  | reconnectTaskDone
  | connectSuccess
  | shutdown
deriving DecidableEq, Repr

/-- Coordinator transitions that touch reconnect scheduling:
`_on_disconnect` (lines 303-311) and the failure branch of `_reconnect`
(lines 338-341) call `_schedule_reconnect` only when not shutting down;
completion of the reconnect task clears the pending flag; a successful
`_connect` resets the attempt counter to zero (line 272); `async_shutdown`
(lines 146-154) sets the shutting-down flag and cancels any pending task. -/
def coord_step (s : CoordState) (e : CoordEvent) : Option Nat × CoordState :=
  match e with
  | .disconnect => if s.shutting_down then (none, s) else schedule_reconnect s
  | .reconnectFailed => if s.shutting_down then (none, s) else schedule_reconnect s
  | .reconnectTaskDone => (none, { s with reconnect_pending := false })
  | .connectSuccess => (none, { s with reconnect_attempt := 0 })
  | .shutdown => (none, { s with shutting_down := true, reconnect_pending := false })

/-- A concrete crypto instantiation used only by witness theorems: decryption
is the identity on the ciphertext, signature verification always succeeds. -/
def dummyCrypto : CryptoModel where
  sha256 := fun d => [d.length % 256]
  hmacSha256 := fun _ d => d
  aesGcmEncrypt := fun _ _ pt _ => pt ++ List.replicate 16 0
  aesGcmDecrypt := fun _ _ ct _ => some ct
  ecdsaVerifyPrehashed := fun _ _ _ => true
  ecdsaSign := fun _ d => d

/-- A concrete handshake context used only by witness theorems. -/
def svCtx : HandshakeCtx where
  device_pubkey := [4]
  transcript := [9, 9]
  hello_hash := [2]
  shared_secret := [1]
  auth_data := [7]

/-- A concrete decrypted server-verify plaintext used only by witness
theorems: length-prefixed fields `auth_data = [7]`, `signature = [3]`,
`hello_hash = [2]`. -/
def svPlain : Bytes := [0, 1, 7, 0, 1, 3, 0, 1, 2]

/-- A concrete established session used only by witness theorems. -/
def sampleSession : PTLS where
  session_id := some [1, 2, 3, 4]
  send_key := List.replicate 16 7
  send_iv := List.replicate 12 9
  recv_key := List.replicate 16 8
  recv_iv := List.replicate 12 6
  send_counter := 0
  recv_counter := 0

/-- A concrete lock-command state used only by witness theorems. -/
def sampleLock : LockState where
  ptls := sampleSession
  door_state := 3

/-- A concrete coordinator state used only by witness theorems. -/
def sampleCoord : CoordState where
  reconnect_pending := false
  reconnect_attempt := 5
  shutting_down := false

end Tedee

namespace Tedee

/-- Claim C9: for every counter `c` in `[0, 65535]`, `make_nonce base_iv c`
returns a 12-byte nonce equal to `base_iv` on bytes 0..9, with byte 10 equal
to `base_iv[10] XOR ((c >> 8) & 0xFF)` and byte 11 equal to
`base_iv[11] XOR (c & 0xFF)`. -/
theorem make_nonce_spec (base_iv : Bytes) (c : Nat)
    (hlen : base_iv.length = 12) (hc : c ≤ 65535) :
    (make_nonce base_iv c).length = 12 ∧
    (∀ i, i < 10 → (make_nonce base_iv c).getD i 0 = base_iv.getD i 0) ∧
    (make_nonce base_iv c).getD 10 0 = base_iv.getD 10 0 ^^^ ((c >>> 8) &&& 0xFF) ∧
    (make_nonce base_iv c).getD 11 0 = base_iv.getD 11 0 ^^^ (c &&& 0xFF) := by
  refine ⟨?_, ?_, ?_, ?_⟩
  · simp [make_nonce, hlen]
  · intro i hi
    simp only [make_nonce, List.getD_eq_getElem?_getD]
    rw [List.getElem?_set_ne (by omega), List.getElem?_set_ne (by omega)]
  · simp only [make_nonce, List.getD_eq_getElem?_getD]
    rw [List.getElem?_set_ne (by omega), List.getElem?_set_eq_of_lt]
    · simp [List.getD_eq_getElem?_getD]
    · omega
  · simp only [make_nonce, List.getD_eq_getElem?_getD]
    rw [List.getElem?_set_eq_of_lt]
    · simp only [Option.getD_some]
      rw [List.getElem?_set_ne (by omega)]
    · simp [hlen]

/-- Claim C3: on an established session with pre-call send counter `c`,
`encrypt(m)` returns `0x01 || AES-GCM(send_key, make_nonce(send_iv, c), m)`
(empty AAD), the post-call send counter is `c + 1`, and no other session
field changes. -/
theorem encrypt_spec (C : CryptoModel) (s : PTLS) (m sid : Bytes)
    (hs : s.session_id = some sid) :
    s.encrypt C m =
      .ok (0x01 :: C.aesGcmEncrypt s.send_key (make_nonce s.send_iv s.send_counter) m [],
        { s with send_counter := s.send_counter + 1 }) ∧
    (∀ w s2, s.encrypt C m = .ok (w, s2) →
      s2.send_counter = s.send_counter + 1 ∧ s2.session_id = s.session_id ∧
      s2.send_key = s.send_key ∧ s2.send_iv = s.send_iv ∧
      s2.recv_key = s.recv_key ∧ s2.recv_iv = s.recv_iv ∧
      s2.recv_counter = s.recv_counter) := by
  have he : s.is_established = true := by simp [PTLS.is_established, hs]
  refine ⟨by simp [PTLS.encrypt, he], ?_⟩
  intro w s2 h
  simp only [PTLS.encrypt, he, if_true, Except.ok.injEq, Prod.mk.injEq] at h
  rw [← h.2]
  simp

/-- Witness for C3 on a concrete session and plaintext. -/
theorem encrypt_spec_witness :
    sampleSession.encrypt dummyCrypto [0x5A] =
      .ok (0x01 :: dummyCrypto.aesGcmEncrypt sampleSession.send_key
          (make_nonce sampleSession.send_iv sampleSession.send_counter) [0x5A] [],
        { sampleSession with send_counter := sampleSession.send_counter + 1 }) :=
  (encrypt_spec dummyCrypto sampleSession [0x5A] [1, 2, 3, 4] rfl).1

/-- Claim C4: the session's decrypt operation rejects when the session is not
established; header low nibble 0x04 raises an alert carrying byte 1; 0x00
returns the tail unchanged with the receive counter untouched; 0x01 decrypts
the tail with `make_nonce(recv_iv, recv_counter)` and increments the receive
counter by exactly one; any other nibble is an error. -/
theorem decrypt_inner_spec (C : CryptoModel) (s : PTLS) (data : Bytes) :
    (s.session_id = none → s.decrypt_inner C data = .error .notEstablished) ∧
    (∀ b tail, s.session_id.isSome = true → data = b :: tail →
      (b &&& 0x0F = 0x04 →
        s.decrypt_inner C data = .error (.alertError (tail.headD 0xFF))) ∧
      (b &&& 0x0F = 0x00 → s.decrypt_inner C data = .ok (tail, s)) ∧
      (b &&& 0x0F = 0x01 →
        s.decrypt_inner C data =
          match C.aesGcmDecrypt s.recv_key (make_nonce s.recv_iv s.recv_counter) tail [] with
          | some pt => .ok (pt, { s with recv_counter := s.recv_counter + 1 })
          | none => .error .gcmAuthFailure) ∧
      (b &&& 0x0F ≠ 0x04 → b &&& 0x0F ≠ 0x00 → b &&& 0x0F ≠ 0x01 →
        s.decrypt_inner C data = .error (.unexpectedHeader (b &&& 0x0F)))) := by
  constructor
  · intro h
    simp [PTLS.decrypt_inner, PTLS.is_established, h]
  · intro b tail hest hdata
    subst hdata
    have he : (!s.is_established) = false := by
      simp [PTLS.is_established, hest]
    refine ⟨?_, ?_, ?_, ?_⟩
    · intro hb; simp [PTLS.decrypt_inner, he, hb]
    · intro hb; simp [PTLS.decrypt_inner, he, hb]
    · intro hb; simp [PTLS.decrypt_inner, he, hb]
    · intro hb4 hb0 hb1
      simp [PTLS.decrypt_inner, he, hb4, hb0, hb1]

/-- Witness for C4 on a concrete plaintext-in-the-clear frame. -/
theorem decrypt_inner_spec_witness :
    sampleSession.decrypt_inner dummyCrypto [0x00, 0xBA, 0x06] =
      .ok ([0xBA, 0x06], sampleSession) :=
  ((decrypt_inner_spec dummyCrypto sampleSession [0x00, 0xBA, 0x06]).2
    0x00 [0xBA, 0x06] rfl rfl).2.1 rfl

/-- Claim C10: when the frame is a server hello (low nibble 0x03) and its
payload is shorter than 100 bytes, the hello exchange fails with a protocol
error before any payload field is read; whenever parsing succeeds the payload
has at least 100 bytes, so the version (byte 0), MTU (byte 1) and the server
ephemeral public key (bytes 35..100, always 65 bytes) are read in range. -/
theorem server_hello_bounds_spec (b : Nat) (payload : Bytes)
    (hb : b &&& 0x0F = 0x03) :
    (payload.length < 100 →
      parse_server_hello (b :: payload) = .error (.serverHelloTooShort payload.length)) ∧
    (∀ sh, parse_server_hello (b :: payload) = .ok sh →
      100 ≤ payload.length ∧
      sh.version = payload.getD 0 0 ∧ sh.mtu = payload.getD 1 0 ∧
      sh.server_random = payload.take 35 ∧
      sh.server_ecdh_pub = (payload.drop 35).take 65 ∧
      sh.server_ecdh_pub.length = 65) := by
  constructor
  · intro hshort
    simp [parse_server_hello, hb, hshort]
  · intro sh hok
    by_cases hshort : payload.length < 100
    · simp [parse_server_hello, hb, hshort] at hok
    · simp only [parse_server_hello, hb] at hok
      rw [if_neg (by norm_num), if_neg (by norm_num), if_neg hshort] at hok
      obtain rfl := (Except.ok.injEq _ _).mp hok
      refine ⟨by omega, rfl, rfl, rfl, rfl, ?_⟩
      simp only [List.length_take, List.length_drop]
      omega

/-- Witness for C10: a 99-byte server hello payload is rejected. -/
theorem server_hello_bounds_spec_witness :
    parse_server_hello (0x03 :: List.replicate 99 0) =
      .error (.serverHelloTooShort (List.replicate 99 (0 : Nat)).length) :=
  (server_hello_bounds_spec 0x03 (List.replicate 99 0) (by decide)).1 (by simp)

/-- Claim C1: in handshake step 4, once the decrypted plaintext parses into
length-prefixed auth_data / signature / hello_hash and the echoed auth_data
and hello_hash match those sent/computed, the handshake proceeds past server
verification if and only if `ecdsa_verify_prehashed(device_pub, signature,
SHA-256(transcript || uint16_be(len(auth_data)) || auth_data))` succeeds,
failing with a handshake error otherwise. -/
theorem server_verify_spec (C : CryptoModel) (ctx : HandshakeCtx) (b : Nat)
    (tail d authD sigB hh : Bytes)
    (hb : b &&& 0x0F = 0x05)
    (hdec : C.aesGcmDecrypt
        (derive_keys_from_hmac C ctx.shared_secret label_ptlss_hs ctx.hello_hash).1
        (derive_keys_from_hmac C ctx.shared_secret label_ptlss_hs ctx.hello_hash).2
        tail [] = some d)
    (hparse : parse_server_verify d = some (authD, sigB, hh))
    (hauth : authD = ctx.auth_data) (hhash : hh = ctx.hello_hash) :
    (C.ecdsaVerifyPrehashed ctx.device_pubkey sigB
        (C.sha256 (ctx.transcript ++ u16be authD.length ++ authD)) = true →
      server_verify C ctx (b :: tail) =
        .ok { ctx with transcript := ctx.transcript ++ d }) ∧
    (C.ecdsaVerifyPrehashed ctx.device_pubkey sigB
        (C.sha256 (ctx.transcript ++ u16be authD.length ++ authD)) = false →
      server_verify C ctx (b :: tail) = .error .signatureInvalid) := by
  subst hauth hhash
  constructor <;> intro hv <;>
    simp only [List.append_assoc] at hv <;>
    simp [server_verify, hb, hdec, hparse, hv]

/-- Witness for C1 on concrete handshake data where the (dummy) prehashed
verification succeeds. -/
theorem server_verify_spec_witness :
    server_verify dummyCrypto svCtx (0x05 :: svPlain) =
      .ok { svCtx with transcript := svCtx.transcript ++ svPlain } :=
  (server_verify_spec dummyCrypto svCtx 0x05 svPlain svPlain
      svCtx.auth_data [3] svCtx.hello_hash
      (by decide) rfl (by decide) rfl rfl).1 rfl

/-- Witness for C9 at a concrete IV and counter. -/
theorem make_nonce_spec_witness :
    (make_nonce [0, 1, 2, 3, 4, 5, 6, 7, 8, 9, 0xA0, 0x0B] 0x0102).getD 10 0 =
      0xA0 ^^^ 0x01 ∧
    (make_nonce [0, 1, 2, 3, 4, 5, 6, 7, 8, 9, 0xA0, 0x0B] 0x0102).getD 11 0 =
      0x0B ^^^ 0x02 := by
  have h := make_nonce_spec [0, 1, 2, 3, 4, 5, 6, 7, 8, 9, 0xA0, 0x0B] 0x0102
    (by decide) (by decide)
  exact ⟨h.2.2.1, h.2.2.2⟩

end Tedee

namespace Tedee

/-- Claim C5: the client-verify ciphertext is split at `server_mtu - 1`: when
it fits, the whole ciphertext goes out under header 0x06 followed by a bare
`[0x07]` frame (always sent); when longer, exactly the first `server_mtu - 1`
bytes go under 0x06 and all remaining bytes under 0x07. -/
theorem client_verify_split_spec (server_mtu : Nat) (encrypted : Bytes)
    (hm : 1 ≤ server_mtu) :
    (encrypted.length ≤ server_mtu - 1 →
      client_verify_frames server_mtu encrypted = [0x06 :: encrypted, [0x07]]) ∧
    (server_mtu - 1 < encrypted.length →
      client_verify_frames server_mtu encrypted =
        [0x06 :: encrypted.take (server_mtu - 1),
         0x07 :: encrypted.drop (server_mtu - 1)] ∧
      (encrypted.take (server_mtu - 1)).length = server_mtu - 1) := by
  constructor
  · intro hle
    have hc : (encrypted.length : Int) ≤ (server_mtu : Int) - 1 := by omega
    simp [client_verify_frames, hc]
  · intro hgt
    have hc : ¬((encrypted.length : Int) ≤ (server_mtu : Int) - 1) := by omega
    have h0 : (0 : Int) ≤ (server_mtu : Int) - 1 := by omega
    have ht : ((server_mtu : Int) - 1).toNat = server_mtu - 1 := by omega
    refine ⟨by simp [client_verify_frames, hc, pyTake, pyDrop, h0, ht], ?_⟩
    simp only [List.length_take]
    omega

/-- Witness for C5 at the exact boundary `len = server_mtu - 1`: the second
frame is the bare `[0x07]`. -/
theorem client_verify_split_spec_witness :
    client_verify_frames 244 (List.replicate 243 1) =
      [0x06 :: List.replicate 243 1, [0x07]] :=
  (client_verify_split_spec 244 (List.replicate 243 1) (by decide)).1
    (by rw [List.length_replicate])

/-- Claim C2: every high-level command encrypts its opcode payload with the
session, writes it to the command channel, decrypts the response from that
channel with the session, raises a command error carrying exactly the
non-zero result code, and returns the parsed result when the code is zero. -/
theorem command_flow_spec (C : CryptoModel) (lk : LockState) (cmd : Cmd)
    (wire_response : Bytes) (sid : Bytes) (d0 d1 d2 : Nat) (drest : Bytes) (s2 : PTLS)
    (hest : lk.ptls.session_id = some sid)
    (hdec : PTLS.decrypt_inner C { lk.ptls with send_counter := lk.ptls.send_counter + 1 }
        wire_response = .ok (d0 :: d1 :: d2 :: drest, s2)) :
    (d1 ≠ 0 → run_command C lk cmd wire_response = .error (.commandError d1)) ∧
    (d1 = 0 → ∃ res, run_command C lk cmd wire_response =
        .ok (res, { lk with ptls := s2 },
          0x01 :: C.aesGcmEncrypt lk.ptls.send_key
            (make_nonce lk.ptls.send_iv lk.ptls.send_counter) (cmdPayload cmd) [])) := by
  have he : lk.ptls.is_established = true := by
    simp [PTLS.is_established, hest]
  have henc : lk.ptls.encrypt C (cmdPayload cmd) =
      .ok (0x01 :: C.aesGcmEncrypt lk.ptls.send_key
          (make_nonce lk.ptls.send_iv lk.ptls.send_counter) (cmdPayload cmd) [],
        { lk.ptls with send_counter := lk.ptls.send_counter + 1 }) := by
    simp [PTLS.encrypt, he]
  constructor
  · intro hr
    simp [run_command, send_command, henc, hdec, hr]
  · intro hr
    subst hr
    cases cmd <;> simp [run_command, send_command, henc, hdec]

/-- Witness for C2: a concrete `pull_spring` round trip with result code 0. -/
theorem command_flow_spec_witness :
    ∃ res, run_command dummyCrypto sampleLock .pullSpring [0x00, 0x52, 0x00, 0x00] =
      .ok (res, { sampleLock with ptls := { sampleSession with send_counter := 1 } },
        0x01 :: dummyCrypto.aesGcmEncrypt sampleSession.send_key
          (make_nonce sampleSession.send_iv 0) (cmdPayload .pullSpring) []) :=
  (command_flow_spec dummyCrypto sampleLock .pullSpring [0x00, 0x52, 0x00, 0x00]
      [1, 2, 3, 4] 0x52 0x00 0x00 [] { sampleSession with send_counter := 1 }
      rfl rfl).2 rfl

/-- Claim C6: a successful `get_state()` returns `(lock_state, status,
door_state)` where `lock_state` is byte 1 of the opcode-stripped response,
`status` is byte 2 when the response has more than 2 bytes and defaults to OK
(0x00) otherwise, and `door_state` is the sticky stored value, which the
command does not change. -/
theorem get_state_spec (C : CryptoModel) (lk : LockState)
    (wire_response : Bytes) (sid : Bytes) (d0 ls : Nat) (rest2 : Bytes) (s2 : PTLS)
    (hest : lk.ptls.session_id = some sid)
    (hdec : PTLS.decrypt_inner C { lk.ptls with send_counter := lk.ptls.send_counter + 1 }
        wire_response = .ok (d0 :: 0 :: ls :: rest2, s2)) :
    run_command C lk .getState wire_response =
      .ok (.state ls (rest2.headD 0x00) lk.door_state, { lk with ptls := s2 },
        0x01 :: C.aesGcmEncrypt lk.ptls.send_key
          (make_nonce lk.ptls.send_iv lk.ptls.send_counter) (cmdPayload .getState) []) ∧
    (rest2 = [] → rest2.headD 0x00 = 0x00) ∧
    (∀ st rest3, rest2 = st :: rest3 → rest2.headD 0x00 = st) ∧
    ({ lk with ptls := s2 } : LockState).door_state = lk.door_state := by
  have he : lk.ptls.is_established = true := by
    simp [PTLS.is_established, hest]
  have henc : lk.ptls.encrypt C (cmdPayload .getState) =
      .ok (0x01 :: C.aesGcmEncrypt lk.ptls.send_key
          (make_nonce lk.ptls.send_iv lk.ptls.send_counter) (cmdPayload .getState) [],
        { lk.ptls with send_counter := lk.ptls.send_counter + 1 }) := by
    simp [PTLS.encrypt, he]
  refine ⟨?_, ?_, ?_, rfl⟩
  · simp [run_command, send_command, henc, hdec]
  · intro h; subst h; rfl
  · intro st rest3 h; subst h; rfl

/-- Witness for C6: a 3-byte `get_state` response (opcode, result 0, state
LOCKED) defaults the status to OK and reports the stored door state. -/
theorem get_state_spec_witness :
    run_command dummyCrypto sampleLock .getState [0x00, 0x5A, 0x00, 0x06] =
      .ok (.state 0x06 0x00 sampleLock.door_state,
        { sampleLock with ptls := { sampleSession with send_counter := 1 } },
        0x01 :: dummyCrypto.aesGcmEncrypt sampleSession.send_key
          (make_nonce sampleSession.send_iv 0) (cmdPayload .getState) []) :=
  (get_state_spec dummyCrypto sampleLock [0x00, 0x5A, 0x00, 0x06]
      [1, 2, 3, 4] 0x5A 0x06 [] { sampleSession with send_counter := 1 }
      rfl rfl).1

/-- Claim C7: the connect sequence retries the handshake exactly once after an
INVALID_CERTIFICATE (0x05) alert, after force-refreshing credentials; exactly
once after a NO_TRUSTED_TIME (0x02) alert, after refreshing signed time, and
then issues `set_signed_time` before any other command when the retry
succeeds; any other handshake failure is not retried. -/
theorem connect_retry_spec (h1 h2 : HSResult) :
    ((connect_sequence h1 h2).handshake_attempts ≤ 2) ∧
    (h1 = .alert 0x05 →
      (connect_sequence h1 h2).handshake_attempts = 2 ∧
      (connect_sequence h1 h2).refreshes = [.refreshCertificate]) ∧
    (h1 = .alert 0x02 →
      (connect_sequence h1 h2).handshake_attempts = 2 ∧
      (connect_sequence h1 h2).refreshes = [.refreshSignedTime] ∧
      (h2 = .ok →
        (connect_sequence h1 h2).commands.head? = some .setSignedTime)) ∧
    (∀ c, h1 = .alert c → c ≠ 0x05 → c ≠ 0x02 →
      (connect_sequence h1 h2).handshake_attempts = 1 ∧
      (connect_sequence h1 h2).success = false) ∧
    (h1 = .failure →
      (connect_sequence h1 h2).handshake_attempts = 1 ∧
      (connect_sequence h1 h2).success = false) := by
  refine ⟨?_, ?_, ?_, ?_, ?_⟩
  · cases h1 with
    | ok => simp [connect_sequence]
    | failure => simp [connect_sequence]
    | alert c =>
      by_cases h5 : c = 0x05
      · cases h2 <;> simp [connect_sequence, h5]
      · by_cases h2c : c = 0x02
        · cases h2 <;> simp [connect_sequence, h5, h2c]
        · simp [connect_sequence, h5, h2c]
  · intro h; subst h; cases h2 <;> simp [connect_sequence]
  · intro h; subst h; cases h2 <;> simp [connect_sequence]
  · intro c h hc5 hc2; subst h; simp [connect_sequence, hc5, hc2]
  · intro h; subst h; simp [connect_sequence]

/-- Witness for C7: after a NO_TRUSTED_TIME alert and a successful retry, the
first command issued is `set_signed_time`. -/
theorem connect_retry_spec_witness :
    (connect_sequence (.alert 0x02) .ok).commands.head? = some .setSignedTime :=
  (((connect_retry_spec (.alert 0x02) .ok).2.2.1 rfl).2.2) rfl

/-- Claim C8: when a reconnect is actually scheduled with consecutive-attempt
counter `n`, its delay is the n-th element of 2, 5, 10, 30, 60 seconds (60
thereafter) and the counter advances; a successful connect resets the counter
to zero; nothing is scheduled while a reconnect task is pending; and nothing
is ever scheduled once the shutting-down flag is set (which no event
clears). -/
theorem reconnect_policy_spec (s : CoordState) (e : CoordEvent) (n : Nat) :
    (s.reconnect_pending = false → s.shutting_down = false → s.reconnect_attempt = n →
      (coord_step s .disconnect).1 =
        some (if n < 5 then RECONNECT_DELAYS.getD n 0 else 60) ∧
      (coord_step s .disconnect).2.reconnect_attempt = n + 1) ∧
    ((coord_step s .connectSuccess).2.reconnect_attempt = 0) ∧
    (s.reconnect_pending = true → (coord_step s e).1 = none) ∧
    (s.shutting_down = true → (coord_step s e).1 = none ∧
      (coord_step s e).2.shutting_down = true) := by
  refine ⟨?_, by simp [coord_step], ?_, ?_⟩
  · intro hp hsd hn
    constructor
    · simp only [coord_step, hsd, Bool.false_eq_true, if_false,
        schedule_reconnect, hp]
      rcases Nat.lt_or_ge n 5 with h | h
      · rw [if_pos h]
        have hmin : min s.reconnect_attempt (RECONNECT_DELAYS.length - 1) = n := by
          simp only [RECONNECT_DELAYS, List.length_cons, List.length_nil]
          omega
        rw [hmin]
      · rw [if_neg (by omega)]
        have hmin : min s.reconnect_attempt (RECONNECT_DELAYS.length - 1) = 4 := by
          simp only [RECONNECT_DELAYS, List.length_cons, List.length_nil]
          omega
        rw [hmin]
        rfl
    · simp [coord_step, hsd, schedule_reconnect, hp, hn]
  · intro hp
    cases e <;> simp [coord_step, schedule_reconnect, hp]
  · intro hsd
    cases e <;> simp [coord_step, schedule_reconnect, hsd]

/-- Witness for C8: with five failed attempts already counted, the next
scheduled delay is 60 seconds. -/
theorem reconnect_policy_spec_witness :
    (coord_step sampleCoord .disconnect).1 = some 60 := by
  have h := (reconnect_policy_spec sampleCoord .disconnect 5).1 rfl rfl rfl
  simpa using h.1

end Tedee
